import Mathlib

/-!
Shallow embedding of `repos/system_upgrade/el7toel8/libraries/rhsm.py`.

The library talks to an external command runner (leapp's `IsolatedActions`
"context"), so a context is modelled as a record of response functions: what
each issued command returns, whether a path removal succeeds, which directories
exist, and so on.  Every operation of the library is translated into a pure
function returning its Python result (`Except` models raised exceptions)
together with the ordered list of observable side effects (commands issued,
filesystem primitives invoked, log lines, reports, sleeps).

The regular-expression uses of the source are small and fixed, so each pattern
is translated into a dedicated character-list scanner whose behaviour matches
Python `re` semantics (leftmost match, greedy and lazy quantifier resolution,
MULTILINE and DOTALL flags) on the concrete patterns involved.
-/

set_option autoImplicit false

namespace Rhsm

/-! ## Basic text machinery (Python `re` on the fixed patterns of the source) -/

/-- Python `\s` whitespace class, on the ASCII range. -/
def isPySpace (c : Char) : Bool :=
  c = ' ' || c = '\t' || c = '\n' || c = '\r' || c = '\x0b' || c = '\x0c'

/-- Strip a literal off the front of a character list, returning the rest. -/
def stripLit : List Char → List Char → Option (List Char)
  | [], cs => some cs
  | _ :: _, [] => none
  | p :: ps, c :: cs => if p = c then stripLit ps cs else none

/--
One match attempt of `LIT\s*([^\s]+)` at the current position: the literal,
any run of whitespace, then a maximal nonempty run of non-whitespace (the
capture).  Greedy `[^\s]+` cannot backtrack usefully here (shrinking it leaves
a non-whitespace character before end of pattern), so the maximal run is the
only candidate.  Returns the capture and the remainder after the match.
-/
def tokenAfter (lit : List Char) (cs : List Char) : Option (String × List Char) :=
  match stripLit lit cs with
  | none => none
  | some cs1 =>
    let cs2 := cs1.dropWhile isPySpace
    let tok := cs2.takeWhile (fun c => !isPySpace c)
    if tok.isEmpty then none else some (tok.asString, cs2.drop tok.length)

/-- `re.findall` scanning loop for `LIT\s*([^\s]+)`: try each position left to
right, continue after the end of every (nonempty) match.  `fuel` bounds the
recursion; every step consumes at least one character, so an initial fuel of
the text length is enough. -/
def findTokensFuel (lit : List Char) : Nat → List Char → List String
  | 0, _ => []
  | _ + 1, [] => []
  | n + 1, c :: cs =>
    match tokenAfter lit (c :: cs) with
    | some (t, rest) => t :: findTokensFuel lit n rest
    | none => findTokensFuel lit n cs

/-- `re.findall(r'LIT\s*([^\s]+)', s)` for a literal `LIT`.  Instantiated with
the three patterns `SKU:`, `Repo ID:` and `Release:` of the source. -/
def findTokens (lit : String) (s : String) : List String :=
  findTokensFuel lit.toList s.toList.length s.toList

/--
One match attempt of `Repository ([^\s]+) is listed more than once` at the
current position.  The greedy `[^\s]+` must take the maximal non-whitespace
run (any shorter choice leaves a non-space character where the pattern needs
the space of ` is listed`), and the trailing literal must follow.
-/
def matchDupAt (cs : List Char) : Option (String × List Char) :=
  match stripLit "Repository ".toList cs with
  | none => none
  | some cs1 =>
    let tok := cs1.takeWhile (fun c => !isPySpace c)
    let rest := cs1.dropWhile (fun c => !isPySpace c)
    if tok.isEmpty then none
    else
      match stripLit " is listed more than once".toList rest with
      | none => none
      | some rest2 => some (tok.asString, rest2)

/-- Scanning loop of `re.findall` for the duplicate-repository pattern. -/
def findDupsFuel : Nat → List Char → List String
  | 0, _ => []
  | _ + 1, [] => []
  | n + 1, c :: cs =>
    match matchDupAt (c :: cs) with
    | some (t, rest) => t :: findDupsFuel n rest
    | none => findDupsFuel n cs

/-- All captures of `re.findall(r'Repository ([^\s]+) is listed more than
once', stderr)`, in document order, with multiplicity. -/
def findDuplicates (stderr : String) : List String :=
  findDupsFuel stderr.toList.length stderr.toList

/-- Consume characters up to and through the first occurrence of a literal:
the lazy `.*?LIT` step of the block-splitting pattern.  Returns the consumed
segment (including the literal) and the remainder. -/
def consumeThrough (lit : List Char) : List Char → Option (List Char × List Char)
  | [] =>
    match stripLit lit [] with
    | some r => some ([], r)
    | none => none
  | c :: cs =>
    match stripLit lit (c :: cs) with
    | some r => some (lit, r)
    | none =>
      match consumeThrough lit cs with
      | none => none
      | some (a, r) => some (c :: a, r)

/--
One match attempt of `Repo-id.*?Repo-filename.*?\n` (DOTALL) at the current
position: the literal `Repo-id`, then lazily up to the first `Repo-filename`,
then lazily up to the first newline.  Returns the whole matched block and the
remainder after it.  (If the first `Repo-filename` occurrence has no newline
after it, later occurrences have none either, so no backtracking can save the
match.)
-/
def blockAt (cs : List Char) : Option (List Char × List Char) :=
  match stripLit "Repo-id".toList cs with
  | none => none
  | some cs1 =>
    match consumeThrough "Repo-filename".toList cs1 with
    | none => none
    | some (mid, cs2) =>
      match consumeThrough ['\n'] cs2 with
      | none => none
      | some (tl, rest) => some ("Repo-id".toList ++ mid ++ tl, rest)

/-- Scanning loop of `re.findall` for the block-splitting pattern. -/
def findBlocksFuel : Nat → List Char → List (List Char)
  | 0, _ => []
  | _ + 1, [] => []
  | n + 1, c :: cs =>
    match blockAt (c :: cs) with
    | some (b, rest) => b :: findBlocksFuel n rest
    | none => findBlocksFuel n cs

/-- `re.findall(r"Repo-id.*?Repo-filename.*?\n", stdout, re.DOTALL |
re.MULTILINE)`: the repo-info blocks, in document order. -/
def findBlocks (stdout : String) : List (List Char) :=
  findBlocksFuel stdout.toList.length stdout.toList

/-- Drop through the first newline, the step from one `^` anchor position of a
MULTILINE search to the next. -/
def dropLine : List Char → Option (List Char)
  | [] => none
  | c :: cs => if c = '\n' then some cs else dropLine cs

/-- `re.search` with a `^`-anchored MULTILINE pattern: try the match at every
line start, left to right. -/
def searchLinesFuel (m : List Char → Option (List Char)) : Nat → List Char → Option (List Char)
  | 0, _ => none
  | n + 1, cs =>
    match m cs with
    | some g => some g
    | none =>
      match dropLine cs with
      | none => none
      | some cs2 => searchLinesFuel m n cs2

/--
The lazy `([^/]+?)(/.*?)?$` tail of the `Repo-id` pattern (DOTALL, MULTILINE),
starting right after the matched `\s+` run.  The lazy group grows one
character at a time, so the capture runs to the first position that lets the
rest of the pattern match: a `/` (the optional group, whose `.*?` can always
reach end of input), a newline (MULTILINE `$`), or the end of input.  It fails
only when it cannot take even its first character: empty input or a leading
`/`.
-/
def lazyGroupGo (acc : List Char) : List Char → List Char
  | [] => acc
  | c :: cs => if c = '/' || c = '\n' then acc else lazyGroupGo (acc ++ [c]) cs

/-- See `lazyGroupGo`: the `([^/]+?)` capture, or `none` when the group cannot
start. -/
def lazyGroup : List Char → Option (List Char)
  | [] => none
  | c :: cs => if c = '/' then none else some (lazyGroupGo [c] cs)

/--
Greedy backtracking of the `\s+` run preceding the capture group: the run
first takes all the whitespace; if the group then cannot start (next character
is `/` or end), the run gives characters back one at a time, but never shrinks
below one character.  `wsRev` is the consumed whitespace, nearest character
first.
-/
def repoIdAfterWs : List Char → List Char → Option (List Char)
  | [], _ => none
  | [_], tl =>
    match lazyGroup tl with
    | some g => some g
    | none => none
  | w :: ws, tl =>
    match lazyGroup tl with
    | some g => some g
    | none => repoIdAfterWs ws (w :: tl)

/-- One match attempt of `^Repo-id\s+:\s+([^/]+?)(/.*?)?$` (MULTILINE, DOTALL)
at a line start; returns capture group 1. -/
def matchRepoIdAt (cs : List Char) : Option (List Char) :=
  match stripLit "Repo-id".toList cs with
  | none => none
  | some cs1 =>
    let ws1 := cs1.takeWhile isPySpace
    let cs2 := cs1.dropWhile isPySpace
    if ws1.isEmpty then none
    else
      match cs2 with
      | ':' :: cs3 =>
        let ws2 := cs3.takeWhile isPySpace
        let rest := cs3.dropWhile isPySpace
        if ws2.isEmpty then none else repoIdAfterWs ws2.reverse rest
      | _ => none

/-- One match attempt of `^Repo-filename:\s+(.*?)$` (MULTILINE, DOTALL) at a
line start; the lazy capture runs to the first newline or to end of input. -/
def matchRepoFilenameAt (cs : List Char) : Option (List Char) :=
  match stripLit "Repo-filename:".toList cs with
  | none => none
  | some cs1 =>
    let ws := cs1.takeWhile isPySpace
    let rest := cs1.dropWhile isPySpace
    if ws.isEmpty then none else some (rest.takeWhile (fun c => c ≠ '\n'))

/-- `re.search(r'^Repo-id\s+:\s+([^/]+?)(/.*?)?$', block, re.MULTILINE |
re.DOTALL)`, returning capture group 1. -/
def searchRepoId (block : List Char) : Option String :=
  (searchLinesFuel matchRepoIdAt (block.length + 1) block).map List.asString

/-- `re.search(r'^Repo-filename:\s+(.*?)$', block, re.MULTILINE | re.DOTALL)`,
returning capture group 1. -/
def searchRepoFilename (block : List Char) : Option String :=
  (searchLinesFuel matchRepoFilenameAt (block.length + 1) block).map List.asString

/-! ## Data model -/

/-- `StopActorExecutionError(message, details)`: the terminal, user-facing
error shape of the library. -/
structure TerminalError where
  message : String
  details : List (String × String)
deriving DecidableEq, Repr

/-- An exception propagating out of an operation: either the terminal error
above, or a raw `OSError` that no handler in the library caught. -/
inductive RaisedError
  | terminal (e : TerminalError)
  | osError (msg : String)
deriving DecidableEq, Repr

/-- A failure of `context.call`: the process could not be launched
(`OSError`), or it exited non-zero (`CalledProcessError`, carrying its string
rendering and captured stderr). -/
inductive CallError
  | osError (msg : String)
  | processError (desc : String) (stderr : String)
deriving DecidableEq, Repr

/-- The result dictionary of a successful `context.call`. -/
structure CmdResult where
  stdout : String
  stderr : String
deriving DecidableEq, Repr

/-- An observable side effect of an operation, in program order. -/
inductive Event
  | call (cmd : List String)
  | remove (path : String)
  | copyTo (src : String) (dst : String)
  | logError (msg : String)
  | logWarn (msg : String)
  | logInfo (msg : String)
  | sleepFor (seconds : Nat)
  | report (title : String) (summary : String) (severity : String)
      (inhibitor : Bool) (hint : String)
deriving DecidableEq, Repr

/-- The `mounting.IsolatedActions` context, modelled as the responses of the
environment: what each command returns, whether a removal succeeds (`.error`
is the `OSError` message), and the filesystem predicates the library consults
(all under `context.full_path`). -/
structure Context where
  isolated : Bool
  callResult : List String → Except CallError CmdResult
  removeResult : String → Except String Unit
  isDir : String → Bool
  listDir : String → List String
  isFile : String → String → Bool

/-- The process environment, for `os.getenv`. -/
abbrev Env := List (String × String)

/-- `os.getenv(name, dflt)`. -/
def getenvD (env : Env) (name dflt : String) : String :=
  (env.lookup name).getD dflt

/-- The `Repository` namedtuple produced by `_parse_repo_params`. -/
structure Repository where
  repoid : String
  file : String
deriving DecidableEq, Repr

/-- The `RHSMInfo` model built by `scan_rhsm_info`. -/
structure RHSMInfo where
  attached_skus : List String := []
  available_repos : List String := []
  enabled_repos : List String := []
  release : String := ""
  existing_product_certificates : List String := []
deriving DecidableEq, Repr

instance {ε α : Type} [DecidableEq ε] [DecidableEq α] : DecidableEq (Except ε α) := fun x y =>
  match x, y with
  | .ok a, .ok b =>
    if h : a = b then .isTrue (by rw [h]) else .isFalse (by simp [h])
  | .error a, .error b =>
    if h : a = b then .isTrue (by rw [h]) else .isFalse (by simp [h])
  | .ok _, .error _ => .isFalse (fun h => Except.noConfusion h)
  | .error _, .ok _ => .isFalse (fun h => Except.noConfusion h)

/-! ## Skip switch and decorators -/

/-- `skip_rhsm()`: check whether RHSM-related code should be skipped. -/
def skip_rhsm (env : Env) : Bool :=
  getenvD env "LEAPP_DEVEL_SKIP_RHSM" "0" == "1"

/--
`with_rhsm(f)`: the decorator body runs when the module is imported, so the
skip switch is read from the environment as it is at import time; the
decorated function is then fixed.  A skipped function returns `None`
(modelled `none`) with no side effects; otherwise the original function runs
and its value is wrapped in `some`.
-/
def withRhsm {β : Type} (envImport : Env)
    (f : Context → Except RaisedError β × List Event) (ctx : Context) :
    Except RaisedError (Option β) × List Event :=
  if skip_rhsm envImport then (Except.ok none, [])
  else ((f ctx).1.map some, (f ctx).2)

/-- A call to a `with_rhsm`-decorated operation, in a process that imported
the module under `envImport` and whose environment is `envCall` at the moment
of the call.  The wrapper was chosen at import time and never reads the
environment again, so `envCall` is not consulted. -/
def gatedCallAt {β : Type} (envImport envCall : Env)
    (f : Context → Except RaisedError β × List Event) (ctx : Context) :
    Except RaisedError (Option β) × List Event :=
  withRhsm envImport f ctx

/-! ## Retry executor (`_rhsm_retry`) -/

/-- Final-failure log line of the retry loop. -/
def retryWarnMsg (attempts maxAttempts : Nat) : String :=
  "Attempt " ++ toString attempts ++ " of " ++ toString maxAttempts ++
    " to perform the operation failed. Maximum number of retries has been reached."

/-- Retry log line used when a sleep delay is configured. -/
def retrySleepMsg (attempts maxAttempts sleep : Nat) : String :=
  "Attempt " ++ toString attempts ++ " of " ++ toString maxAttempts ++
    " to perform the operation failed - Retrying after " ++ toString sleep ++ " seconds"

/-- Retry log line used when no sleep delay is configured. -/
def retryPlainMsg (attempts maxAttempts : Nat) : String :=
  "Attempt " ++ toString attempts ++ " of " ++ toString maxAttempts ++
    " to perform the operation failed - Retrying..."

/--
The `while True` loop of `_rhsm_retry`, entered with `attempts` attempts
already made.  `f i` is the outcome of the `i`-th invocation of the wrapped
operation (invocations are numbered from 1); `sleep = 0` models `sleep=None`.
Returns the Python outcome, the final value of the attempt counter (the
number of invocations performed), and the logged/slept side effects.
-/
def rhsmRetryFrom {α : Type} (f : Nat → Except TerminalError α)
    (sleep maxAttempts attempts : Nat) :
    (Except TerminalError α × Nat) × List Event :=
  match f (attempts + 1) with
  | .ok a => ((.ok a, attempts + 1), [])
  | .error e =>
    if h : maxAttempts ≤ attempts + 1 then
      ((.error e, attempts + 1), [.logWarn (retryWarnMsg (attempts + 1) maxAttempts)])
    else
      let evs := if sleep ≠ 0 then
          [Event.logInfo (retrySleepMsg (attempts + 1) maxAttempts sleep),
           Event.sleepFor sleep]
        else [Event.logInfo (retryPlainMsg (attempts + 1) maxAttempts)]
      let r := rhsmRetryFrom f sleep maxAttempts (attempts + 1)
      (r.1, evs ++ r.2)
termination_by maxAttempts - attempts
decreasing_by omega

/-- `_rhsm_retry(max_attempts, sleep)` applied to an operation whose `i`-th
invocation yields `f i`. -/
def rhsmRetry {α : Type} (f : Nat → Except TerminalError α) (sleep maxAttempts : Nat) :
    (Except TerminalError α × Nat) × List Event :=
  rhsmRetryFrom f sleep maxAttempts 0

/-! ## Exception handler and the subscription-manager operations -/

/-- Default hint of the `CalledProcessError` branch of
`_handle_rhsm_exceptions`. -/
def execDefaultHint : String :=
  "Please ensure you have a valid RHEL subscription and your network is up."

/--
`with _handle_rhsm_exceptions(hint): result = context.call(cmd, split=False);
return k(result)`.  An `OSError` from the call is logged and re-raised as a
terminal error with an installation hint; a `CalledProcessError` is re-raised
as a terminal error carrying its rendering, its stderr and the (caller or
default) hint.
-/
def runWithHandler {α : Type} (hint : Option String) (ctx : Context)
    (cmd : List String) (k : CmdResult → α) : Except RaisedError α × List Event :=
  match ctx.callResult cmd with
  | .ok r => (.ok (k r), [.call cmd])
  | .error (.osError m) =>
    (.error (.terminal
      { message := "Unable to execute subscription-manager executable: " ++ m
        details := [("hint", "Please ensure subscription-manager is installed and executable.")] }),
     [.call cmd, .logError "Failed to execute subscription-manager executable"])
  | .error (.processError d st) =>
    (.error (.terminal
      { message := "A subscription-manager command failed to execute"
        details := [("details", d), ("stderr", st), ("hint", hint.getD execDefaultHint)] }),
     [.call cmd])

/-- Body of `get_attached_skus` (before the `with_rhsm` decoration). -/
def get_attached_skusImpl (ctx : Context) : Except RaisedError (List String) × List Event :=
  runWithHandler none ctx ["subscription-manager", "list", "--consumed"]
    (fun r => findTokens "SKU:" r.stdout)

/-- Body of `get_enabled_repo_ids` (before the `with_rhsm` decoration). -/
def get_enabled_repo_idsImpl (ctx : Context) : Except RaisedError (List String) × List Event :=
  runWithHandler none ctx ["subscription-manager", "repos", "--list-enabled"]
    (fun r => findTokens "Repo ID:" r.stdout)

/-- Body of `get_release` (before the `with_rhsm` decoration): the first
`Release:` token of stdout, or the empty string when there is none. -/
def get_releaseImpl (ctx : Context) : Except RaisedError String × List Event :=
  runWithHandler none ctx ["subscription-manager", "release"]
    (fun r => (findTokens "Release:" r.stdout).headD "")

/-- The decorated `get_attached_skus`, as fixed by an import under
`envImport`. -/
def get_attached_skus (envImport : Env) (ctx : Context) :
    Except RaisedError (Option (List String)) × List Event :=
  withRhsm envImport get_attached_skusImpl ctx

/-- The decorated `get_enabled_repo_ids`, as fixed by an import under
`envImport`. -/
def get_enabled_repo_ids (envImport : Env) (ctx : Context) :
    Except RaisedError (Option (List String)) × List Event :=
  withRhsm envImport get_enabled_repo_idsImpl ctx

/-- The decorated `get_release`, as fixed by an import under `envImport`. -/
def get_release (envImport : Env) (ctx : Context) :
    Except RaisedError (Option String) × List Event :=
  withRhsm envImport get_releaseImpl ctx

/-! ## Duplicate-repository detection and repo parsing -/

/-- The `'\n    - '` separator used by the log and report formatting. -/
def listSep : String := "\n    - "

/-- `list_separator_fmt + list_separator_fmt.join(xs)`. -/
def fmtList (xs : List String) : String :=
  listSep ++ String.intercalate listSep xs

/-- Warning log line of `_inhibit_on_duplicate_repos`. -/
def dupWarnEvent (dups : List String) : Event :=
  .logWarn ("The following repoids are defined multiple times:" ++ fmtList dups)

/-- Report created by `_inhibit_on_duplicate_repos`. -/
def dupReportEvent (dups : List String) : Event :=
  .report "A YUM/DNF repository defined multiple times"
    ("The `yum repoinfo` command reports that the following repositories are defined multiple times:"
      ++ fmtList dups)
    "medium" true "Remove the duplicit repository definitions."

/-- `_inhibit_on_duplicate_repos(repos_raw_stderr)`: collect every match of
the duplicate pattern; if any, log a warning and create one medium-severity
inhibiting report.  The function raises nothing; its outcome is the (possibly
empty) list of side effects. -/
def inhibitOnDuplicateRepos (stderr : String) : List Event :=
  let dups := findDuplicates stderr
  if dups.isEmpty then [] else [dupWarnEvent dups, dupReportEvent dups]

/-- The terminal error raised by `_parse_repo_params` when parameter `param`
cannot be extracted from block `block`. -/
def repoParseErr (param : String) (block : List Char) : TerminalError :=
  { message := "Failed to parse the `yum repoinfo` output"
    details := [("details",
      "Failed to parse the \x27" ++ param ++ "\x27 repo parameter within the following part of the"
        ++ " `yum repoinfo` output:\n" ++ block.asString)] }

/-- `_parse_repo_params(repo_params_raw)`: extract `Repo-id` then
`Repo-filename`; the first missing parameter turns into a terminal parse
error naming it and embedding the block. -/
def parseRepoParams (block : List Char) : Except TerminalError Repository :=
  match searchRepoId block with
  | none => .error (repoParseErr "Repo-id" block)
  | some repoid =>
    match searchRepoFilename block with
    | none => .error (repoParseErr "Repo-filename" block)
    | some repofile => .ok { repoid := repoid, file := repofile }

/-- `list(_get_repos(stdout))` over an explicit block list: parse every block
in order; the first parse error aborts the whole listing. -/
def parseBlocks : List (List Char) → Except TerminalError (List Repository)
  | [] => .ok []
  | b :: bs =>
    match parseRepoParams b with
    | .error e => .error e
    | .ok r =>
      match parseBlocks bs with
      | .error e => .error e
      | .ok rs => .ok (r :: rs)

/-- `list(_get_repos(repos_stdout_raw))`. -/
def getReposList (stdout : String) : Except TerminalError (List Repository) :=
  parseBlocks (findBlocks stdout)

/-! ## `get_available_repo_ids` (not decorated with `with_rhsm`) -/

/-- `_DEFAULT_RHSM_REPOFILE`. -/
def defaultRhsmRepofile : String := "/etc/yum.repos.d/redhat.repo"

/-- The `yum repoinfo` command line, with the optional `--releasever`. -/
def yumRepoinfoCmd (releasever : Option String) : List String :=
  ["yum", "repoinfo"] ++ (match releasever with
    | some v => ["--releasever", v]
    | none => [])

/-- The informational log line closing `get_available_repo_ids`. -/
def availableReposLog (rs : List String) : Event :=
  if rs.isEmpty then .logInfo "There are no repos available through RHSM."
  else .logInfo ("The following repoids are available through RHSM:" ++ fmtList rs)

/--
Body of `get_available_repo_ids(context, releasever)`: run `yum repoinfo`
(re-raising a non-zero exit as a terminal error without a hint, and letting a
launch `OSError` propagate unchanged), run duplicate detection on stderr,
parse the blocks of stdout, and return the repoids whose file is the default
RHSM repo file, logging the outcome.
-/
def get_available_repo_idsImpl (ctx : Context) (releasever : Option String) :
    Except RaisedError (List String) × List Event :=
  let cmd := yumRepoinfoCmd releasever
  match ctx.callResult cmd with
  | .error (.processError d st) =>
    (.error (.terminal
      { message := "Unable to get list of available yum repositories."
        details := [("details", d), ("stderr", st)] }),
     [.call cmd])
  | .error (.osError m) => (.error (.osError m), [.call cmd])
  | .ok r =>
    let dupEvs := inhibitOnDuplicateRepos r.stderr
    match getReposList r.stdout with
    | .error e => (.error (.terminal e), .call cmd :: dupEvs)
    | .ok repos =>
      let rhsmRepos := (repos.filter (fun p => p.file == defaultRhsmRepofile)).map Repository.repoid
      (.ok rhsmRepos, .call cmd :: (dupEvs ++ [availableReposLog rhsmRepos]))

/-- `get_available_repo_ids` as seen by a process whose environment is `env`:
the function carries no `with_rhsm` decoration, so the environment is never
consulted. -/
def get_available_repo_ids (env : Env) (ctx : Context) (releasever : Option String) :
    Except RaisedError (List String) × List Event :=
  get_available_repo_idsImpl ctx releasever

/-! ## Container mode, certificates -/

/-- The `ln -s /etc/rhsm /etc/rhsm-host` marker command. -/
def lnCmd : List String := ["ln", "-s", "/etc/rhsm", "/etc/rhsm-host"]

/-- The error log line of the host-root misuse branch (the two adjacent
Python string literals concatenate without a space). -/
def containerModeHostMsg : String :=
  "Trying to set RHSM into the container modeon host. Skipping the action."

/-- Body of `set_container_mode` (before the `with_rhsm` decoration): on a
non-isolated context, log an error and return; otherwise create the marker,
re-raising a non-zero exit as a terminal error with no details (and letting a
launch `OSError` propagate unchanged). -/
def set_container_modeImpl (ctx : Context) : Except RaisedError Unit × List Event :=
  if ctx.isolated = false then (.ok (), [.logError containerModeHostMsg])
  else
    match ctx.callResult lnCmd with
    | .ok _ => (.ok (), [.call lnCmd])
    | .error (.processError _ _) =>
      (.error (.terminal
        { message := "Cannot set the container mode for the subscription-manager."
          details := [] }),
       [.call lnCmd])
    | .error (.osError m) => (.error (.osError m), [.call lnCmd])

/-- The decorated `set_container_mode`, as fixed by an import under
`envImport`. -/
def set_container_mode (envImport : Env) (ctx : Context) :
    Except RaisedError (Option Unit) × List Event :=
  withRhsm envImport set_container_modeImpl ctx

/-- The two fixed product-certificate directories. -/
def productDirs : List String := ["/etc/pki/product", "/etc/pki/product-default"]

/-- `os.path.join` for the shapes occurring here (no trailing slash on the
left, no leading slash on the right). -/
def joinPath (a b : String) : String := a ++ "/" ++ b

/-- `os.path.basename`. -/
def basename (p : String) : String :=
  ((p.toList.reverse.takeWhile (fun c => c ≠ '/')).reverse).asString

/-- The removal loop of `switch_certificate`: attempt `context.remove` on
every recorded certificate in order; a failure is logged as a warning and
never stops the loop. -/
def removalEvents (ctx : Context) : List String → List Event
  | [] => []
  | p :: ps =>
    (match ctx.removeResult p with
      | .ok _ => [Event.remove p]
      | .error _ =>
        [Event.remove p, Event.logWarn ("Failed to remove existing certificate: " ++ p)])
      ++ removalEvents ctx ps

/-- The copy loop of `switch_certificate`: copy the new certificate, under
its base name, into each fixed directory that exists in the context. -/
def copyEvents (ctx : Context) (certPath : String) : List Event :=
  (productDirs.filter ctx.isDir).map
    (fun p => Event.copyTo certPath (joinPath p (basename certPath)))

/-- Body of `switch_certificate(context, rhsm_info, cert_path)` (before the
`with_rhsm` decoration): all removal attempts, then the copies. -/
def switch_certificateImpl (ctx : Context) (rhsmInfo : RHSMInfo) (certPath : String) :
    Except RaisedError Unit × List Event :=
  (.ok (), removalEvents ctx rhsmInfo.existing_product_certificates ++ copyEvents ctx certPath)

/-- Body of `get_existing_product_certificates` (before the `with_rhsm`
decoration): the regular files of the two fixed directories, joined to the
container-relative directory path. -/
def get_existing_product_certificatesImpl (ctx : Context) : List String :=
  productDirs.foldl
    (fun acc path =>
      if ctx.isDir path then
        acc ++ ((ctx.listDir path).filter (fun f => ctx.isFile path f)).map
          (fun f => joinPath path f)
      else acc)
    []

/-! ## Spec-side definition for claim C3 -/

/-- Modelled from the spec: "the set of distinct `X` values, order-preserving
by first occurrence" — the deduplication the specification claims duplicate
detection performs. -/
def specDistinctFirstOcc : List String → List String
  | [] => []
  | x :: xs => x :: (specDistinctFirstOcc xs).filter (fun y => y ≠ x)

/-! ## Event classifiers -/

/-- Whether an event is a removal attempt. -/
def isRemoveEv : Event → Bool
  | .remove _ => true
  | _ => false

/-- Whether an event is a copy operation. -/
def isCopyEv : Event → Bool
  | .copyTo _ _ => true
  | _ => false

/-! ## Concrete scenarios used by witnesses and counterexamples -/

/-- A fixed terminal error for retry scenarios. -/
def boomErr : TerminalError := { message := "boom", details := [] }

/-- An operation every invocation of which fails. -/
def alwaysFailOp (_ : Nat) : Except TerminalError Nat := .error boomErr

/-- An operation succeeding on its second invocation. -/
def secondTryOp (i : Nat) : Except TerminalError Nat :=
  if i = 2 then .ok 7 else .error boomErr

/-- An empty successful command result. -/
def okCmdResult : CmdResult := { stdout := "", stderr := "" }

/-- A context where every interaction succeeds trivially. -/
def ctxAllOk : Context :=
  { isolated := true
    callResult := fun _ => .ok okCmdResult
    removeResult := fun _ => .ok ()
    isDir := fun _ => false
    listDir := fun _ => []
    isFile := fun _ _ => false }

/-- An environment with the skip switch set to `"1"`. -/
def envSkipOn : Env := [("LEAPP_DEVEL_SKIP_RHSM", "1")]

/-- An environment without the skip switch. -/
def envEmpty : Env := []

/-- A context where every command exits non-zero. -/
def ctxLnFail : Context :=
  { isolated := true
    callResult := fun _ => .error (.processError "exit code 1" "ln: failed")
    removeResult := fun _ => .ok ()
    isDir := fun _ => false
    listDir := fun _ => []
    isFile := fun _ _ => false }

/-- A context where every command fails to launch. -/
def ctxOsFail : Context :=
  { ctxLnFail with callResult := fun _ => .error (.osError "No such file or directory") }

/-- A host-root (non-isolated) context. -/
def ctxHost : Context := { ctxAllOk with isolated := false }

/-- The terminal error produced by the handler on a non-zero exit of
`ctxLnFail`. -/
def handlerProcErrEx : RaisedError :=
  .terminal
    { message := "A subscription-manager command failed to execute"
      details := [("details", "exit code 1"), ("stderr", "ln: failed"), ("hint", execDefaultHint)] }

/-- stderr carrying the same duplicate-repository warning twice. -/
def dupStderrEx : String :=
  "Repository myrepo is listed more than once\nRepository myrepo is listed more than once\n"

/-- The `yum repoinfo` stdout of the end-to-end scenario of claim C8. -/
def repoinfoStdoutEx : String :=
  "Repo-id   : rhel-7-server-rpms/x86_64\nRepo-name : RHEL\nRepo-filename: /etc/yum.repos.d/redhat.repo\n"

/-- A context whose `yum repoinfo` answers with `repoinfoStdoutEx`. -/
def ctxRepoinfo : Context :=
  { isolated := true
    callResult := fun cmd =>
      if cmd = ["yum", "repoinfo"] then .ok { stdout := repoinfoStdoutEx, stderr := "" }
      else .error (.osError "unexpected command")
    removeResult := fun _ => .ok ()
    isDir := fun _ => false
    listDir := fun _ => []
    isFile := fun _ _ => false }

/-- A context whose `subscription-manager release` query reports no pinned
release. -/
def ctxRelUnset : Context :=
  { ctxAllOk with
    callResult := fun cmd =>
      if cmd = ["subscription-manager", "release"] then
        .ok { stdout := "Release not set", stderr := "" }
      else .error (.osError "unexpected command") }

/-- A block whose `Repo-id` parameter cannot be extracted. -/
def badBlockEx : List Char := "Repo-id x\nRepo-filename: f\n".toList

/-- A snapshot recording two existing product certificates. -/
def infoTwoCerts : RHSMInfo :=
  { existing_product_certificates := ["/etc/pki/product/old1.pem", "/etc/pki/product/old2.pem"] }

/-- A context where removing the first old certificate fails and only
`/etc/pki/product` exists. -/
def ctxCertSwitch : Context :=
  { isolated := true
    callResult := fun _ => .ok okCmdResult
    removeResult := fun p => if p = "/etc/pki/product/old1.pem" then .error "gone" else .ok ()
    isDir := fun d => d == "/etc/pki/product"
    listDir := fun _ => []
    isFile := fun _ _ => false }

/-! # Theorems

First some supporting lemmas, then for each claim its theorem (plus witness
or counterexample where required). -/

theorem strAppend_ne_empty (a b : String) (h : a ≠ "") : a ++ b ≠ "" := by
  intro hab
  apply h
  have : (a ++ b).data = "".data := by rw [hab]
  rw [String.data_append] at this
  have ha : a.data = [] := by
    cases hd : a.data with
    | nil => rfl
    | cons x xs => rw [hd] at this; simp at this
  cases a
  simp_all

theorem rhsmRetryFrom_ok {α : Type} (f : Nat → Except TerminalError α) (s N attempts : Nat)
    (a : α) (h : f (attempts + 1) = Except.ok a) :
    rhsmRetryFrom f s N attempts = ((Except.ok a, attempts + 1), []) := by
  rw [rhsmRetryFrom, h]

theorem rhsmRetryFrom_err_last {α : Type} (f : Nat → Except TerminalError α)
    (s N attempts : Nat) (e : TerminalError) (h : f (attempts + 1) = Except.error e)
    (hle : N ≤ attempts + 1) :
    rhsmRetryFrom f s N attempts =
      ((Except.error e, attempts + 1), [Event.logWarn (retryWarnMsg (attempts + 1) N)]) := by
  rw [rhsmRetryFrom, h]
  exact dif_pos hle

theorem rhsmRetryFrom_err_step {α : Type} (f : Nat → Except TerminalError α)
    (s N attempts : Nat) (e : TerminalError) (h : f (attempts + 1) = Except.error e)
    (hlt : ¬ N ≤ attempts + 1) :
    (rhsmRetryFrom f s N attempts).1 = (rhsmRetryFrom f s N (attempts + 1)).1 := by
  rw [rhsmRetryFrom, h]
  split
  next heq => exact Except.noConfusion heq
  next e2 heq => rw [dif_neg hlt]

theorem rhsmRetryFrom_allFail {α : Type} (f : Nat → Except TerminalError α) (s N : Nat) :
    ∀ k attempts, attempts + k + 1 = N →
      (∀ i, attempts < i → i ≤ N → ∃ e, f i = Except.error e) →
      (rhsmRetryFrom f s N attempts).1 = (f N, N) := by
  intro k
  induction k with
  | zero =>
    intro attempts hN hf
    obtain ⟨e, hfe⟩ := hf (attempts + 1) (by omega) (by omega)
    have hNa : N = attempts + 1 := by omega
    rw [rhsmRetryFrom_err_last f s N attempts e hfe (by omega)]
    subst hNa
    rw [hfe]
  | succ k ih =>
    intro attempts hN hf
    obtain ⟨e, hfe⟩ := hf (attempts + 1) (by omega) (by omega)
    rw [rhsmRetryFrom_err_step f s N attempts e hfe (by omega)]
    exact ih (attempts + 1) (by omega) (fun i hi hle => hf i (by omega) hle)

theorem rhsmRetryFrom_succeed {α : Type} (f : Nat → Except TerminalError α) (s N : Nat)
    (j : Nat) (a : α) (hjN : j ≤ N) (hja : f j = Except.ok a) :
    ∀ k attempts, attempts + k + 1 = j →
      (∀ i, attempts < i → i < j → ∃ e, f i = Except.error e) →
      (rhsmRetryFrom f s N attempts).1 = (Except.ok a, j) := by
  intro k
  induction k with
  | zero =>
    intro attempts hj _
    have hja2 : attempts + 1 = j := by omega
    rw [rhsmRetryFrom_ok f s N attempts a (by rw [hja2, hja]), hja2]
  | succ k ih =>
    intro attempts hj hf
    obtain ⟨e, hfe⟩ := hf (attempts + 1) (by omega) (by omega)
    rw [rhsmRetryFrom_err_step f s N attempts e hfe (by omega)]
    exact ih (attempts + 1) (by omega) (fun i hi hlt2 => hf i (by omega) hlt2)

/-- C1: the retry executor with `maxAttempts = N ≥ 1`, wrapping an operation
whose `i`-th invocation has outcome `f i`: if every invocation raises a
terminal error, the wrapper performs exactly `N` invocations and re-raises
the error of the `N`-th; if the operation first succeeds on attempt
`j ≤ N`, the wrapper performs exactly `j` invocations and returns that
result.  The second component of the result is the final attempt counter,
the number of invocations performed. -/
theorem c1_retry_executor {α : Type} (f : Nat → Except TerminalError α) (sleep N : Nat)
    (hN : 1 ≤ N) :
    ((∀ i, 1 ≤ i → i ≤ N → ∃ e, f i = Except.error e) →
      (rhsmRetry f sleep N).1 = (f N, N)) ∧
    (∀ j a, 1 ≤ j → j ≤ N → f j = Except.ok a →
      (∀ i, 1 ≤ i → i < j → ∃ e, f i = Except.error e) →
      (rhsmRetry f sleep N).1 = (Except.ok a, j)) := by
  constructor
  · intro hf
    exact rhsmRetryFrom_allFail f sleep N (N - 1) 0 (by omega)
      (fun i hi hle => hf i (by omega) hle)
  · intro j a hj1 hjN hja hf
    exact rhsmRetryFrom_succeed f sleep N j a hjN hja (j - 1) 0 (by omega)
      (fun i hi hlt => hf i (by omega) hlt)

/-- C1 witness: at `maxAttempts = 3`, an always-failing operation is invoked
exactly 3 times and its error re-raised; an operation succeeding on its
second invocation is invoked exactly twice. -/
theorem c1_retry_executor_witness :
    1 ≤ 3 ∧
    (rhsmRetry alwaysFailOp 5 3).1 = (Except.error boomErr, 3) ∧
    (rhsmRetry secondTryOp 5 3).1 = (Except.ok 7, 2) := by
  refine ⟨by omega, ?_, ?_⟩
  · exact (c1_retry_executor alwaysFailOp 5 3 (by omega)).1 (fun i _ _ => ⟨boomErr, rfl⟩)
  · exact (c1_retry_executor secondTryOp 5 3 (by omega)).2 2 7 (by omega) (by omega) rfl
      (fun i h1 h2 => by
        have hi : i = 1 := by omega
        subst hi
        exact ⟨boomErr, rfl⟩)

/-- C2 counterexample: the module is imported while the skip switch is `"1"`
and a gated operation is called later, when the switch is no longer set.
The claim says skipping is determined by the switch at call time, so this
call should run normally; the code decided at import time, and the call is a
no-op that issues nothing. -/
theorem c2_counterexample :
    skip_rhsm envEmpty = false ∧
    gatedCallAt envSkipOn envEmpty get_attached_skusImpl ctxAllOk = (Except.ok none, []) ∧
    gatedCallAt envSkipOn envEmpty get_attached_skusImpl ctxAllOk ≠
      ((get_attached_skusImpl ctxAllOk).1.map some, (get_attached_skusImpl ctxAllOk).2) := by
  refine ⟨rfl, rfl, ?_⟩
  decide

/-- C2 (amended): whether a gated call is skipped is determined by the value
of the skip environment variable at module import time, when the decorator
ran; the environment at call time is never consulted, so toggling the
variable between two invocations in the same process changes nothing.  When
the switch was `"1"` at import, every gated call returns immediately
(Python `None`) with no CommandRunner invocation and no raised error; for
any other import-time value the operation runs normally. -/
theorem c2_skip_decided_at_import {β : Type} (envImport envCall : Env)
    (f : Context → Except RaisedError β × List Event) (ctx : Context) :
    (skip_rhsm envImport = true →
      gatedCallAt envImport envCall f ctx = (Except.ok none, [])) ∧
    (skip_rhsm envImport = false →
      gatedCallAt envImport envCall f ctx = ((f ctx).1.map some, (f ctx).2)) := by
  unfold gatedCallAt withRhsm
  constructor <;> intro h <;> simp [h]

/-- C2 witness: with the switch at `"1"` during import, a later call of the
gated release query is a silent no-op. -/
theorem c2_skip_decided_at_import_witness :
    skip_rhsm envSkipOn = true ∧
    gatedCallAt envSkipOn envEmpty get_releaseImpl ctxAllOk = (Except.ok none, []) := by
  refine ⟨rfl, ?_⟩
  exact (c2_skip_decided_at_import envSkipOn envEmpty get_releaseImpl ctxAllOk).1 rfl

/-- C3 counterexample: stderr carrying the duplicate-repository line twice
for the same id.  The claim says the collected list is the distinct ids by
first occurrence (`["myrepo"]`); the code collects every match with
multiplicity and reports `["myrepo", "myrepo"]`. -/
theorem c3_counterexample :
    findDuplicates dupStderrEx = ["myrepo", "myrepo"] ∧
    specDistinctFirstOcc (findDuplicates dupStderrEx) = ["myrepo"] ∧
    inhibitOnDuplicateRepos dupStderrEx ≠
      [dupWarnEvent ["myrepo"], dupReportEvent ["myrepo"]] ∧
    inhibitOnDuplicateRepos dupStderrEx =
      [dupWarnEvent ["myrepo", "myrepo"], dupReportEvent ["myrepo", "myrepo"]] := by
  refine ⟨by decide, by decide, by decide, by decide⟩

/-- C3 (amended): duplicate detection collects exactly the matched repository
ids in document order, with multiplicity (no deduplication); when at least
one line matches it emits exactly one warning log and one medium-severity
inhibiting report listing all collected ids, and when none matches it emits
nothing; in both cases it returns normally (it never raises: its outcome is
a total side-effect list). -/
theorem c3_duplicate_detection (stderr : String) :
    (findDuplicates stderr = [] → inhibitOnDuplicateRepos stderr = []) ∧
    (findDuplicates stderr ≠ [] →
      inhibitOnDuplicateRepos stderr =
        [dupWarnEvent (findDuplicates stderr), dupReportEvent (findDuplicates stderr)]) := by
  constructor <;> intro h <;>
    simp [inhibitOnDuplicateRepos, h, List.isEmpty_iff]

/-- C3 witness: a stderr with no duplicate line yields no report; one with a
single duplicate line yields the warning and the report. -/
theorem c3_duplicate_detection_witness :
    findDuplicates "All packages are up to date" = [] ∧
    inhibitOnDuplicateRepos "All packages are up to date" = [] ∧
    findDuplicates "Repository base is listed more than once in the configuration" ≠ [] ∧
    inhibitOnDuplicateRepos "Repository base is listed more than once in the configuration" =
      [dupWarnEvent ["base"], dupReportEvent ["base"]] := by
  refine ⟨by decide, ?_, by decide, ?_⟩
  · exact (c3_duplicate_detection "All packages are up to date").1 (by decide)
  · have h := (c3_duplicate_detection
      "Repository base is listed more than once in the configuration").2 (by decide)
    rw [h]
    decide

theorem parseRepoParams_error_shape (b : List Char) (e : TerminalError)
    (h : parseRepoParams b = Except.error e) :
    e = repoParseErr "Repo-id" b ∨ e = repoParseErr "Repo-filename" b := by
  unfold parseRepoParams at h
  cases h1 : searchRepoId b with
  | none => rw [h1] at h; left; exact (Except.error.injEq _ _).mp h.symm
  | some rid =>
    rw [h1] at h
    cases h2 : searchRepoFilename b with
    | none => rw [h2] at h; right; exact (Except.error.injEq _ _).mp h.symm
    | some fl => rw [h2] at h; exact Except.noConfusion h

theorem parseBlocks_error_shape (bs : List (List Char)) :
    ∀ e, parseBlocks bs = Except.error e →
      ∃ param b, e = repoParseErr param b := by
  induction bs with
  | nil => intro e h; exact Except.noConfusion h
  | cons x xs ih =>
    intro e h
    rw [parseBlocks] at h
    cases hx : parseRepoParams x with
    | error e0 =>
      rw [hx] at h
      have he : e0 = e := (Except.error.injEq _ _).mp h
      subst he
      rcases parseRepoParams_error_shape x e0 hx with h1 | h1
      · exact ⟨"Repo-id", x, h1⟩
      · exact ⟨"Repo-filename", x, h1⟩
    | ok r =>
      rw [hx] at h
      cases hxs : parseBlocks xs with
      | error e1 =>
        rw [hxs] at h
        have he : e1 = e := (Except.error.injEq _ _).mp h
        subst he
        exact ih e1 hxs
      | ok rs => rw [hxs] at h; exact Except.noConfusion h

theorem parseBlocks_error_of_mem (bs : List (List Char)) :
    ∀ (b : List Char) (e : TerminalError), b ∈ bs → parseRepoParams b = Except.error e →
      ∃ e2, parseBlocks bs = Except.error e2 := by
  induction bs with
  | nil => intro b e h; exact absurd h (List.not_mem_nil b)
  | cons x xs ih =>
    intro b e hmem hpe
    cases hx : parseRepoParams x with
    | error e0 => exact ⟨e0, by rw [parseBlocks, hx]⟩
    | ok r =>
      rcases List.mem_cons.mp hmem with hbx | hbxs
      · subst hbx; rw [hpe] at hx; exact Except.noConfusion hx
      · obtain ⟨e2, he2⟩ := ih b e hbxs hpe
        refine ⟨e2, ?_⟩
        rw [parseBlocks, hx, he2]

/-- C4 counterexample: the terminal error of `set_container_mode` on a failed
marker command carries an empty details mapping — no remediation hint — and
a failure to launch `yum` in `get_available_repo_ids` crosses the boundary as
a raw `OSError`, not as a TerminalError. -/
theorem c4_counterexample :
    (set_container_modeImpl ctxLnFail).1 =
      Except.error (RaisedError.terminal
        { message := "Cannot set the container mode for the subscription-manager."
          details := [] }) ∧
    (∀ v, ("hint", v) ∉ ([] : List (String × String))) ∧
    (get_available_repo_idsImpl ctxOsFail none).1 =
      Except.error (RaisedError.osError "No such file or directory") := by
  exact ⟨rfl, fun v h => by simp at h, rfl⟩

/-- C4 (amended): every terminal error crossing the boundary carries a
human-readable (nonempty) message.  Errors raised through the
subscription-manager exception handler additionally carry a details mapping
with a remediation hint; but the terminal errors of `get_available_repo_ids`
(non-zero `yum` exit, and parse failures) carry details without any hint,
the terminal error of `set_container_mode` carries an empty details mapping,
and a failure to launch `yum` or `ln` is re-raised as the original `OSError`
rather than as a TerminalError. -/
theorem c4_terminal_error_shape {α : Type} :
    (∀ (hint : Option String) (ctx : Context) (cmd : List String) (k : CmdResult → α)
       (e : RaisedError), (runWithHandler hint ctx cmd k).1 = Except.error e →
       ∃ te, e = RaisedError.terminal te ∧ te.message ≠ "" ∧ ∃ v, ("hint", v) ∈ te.details) ∧
    (∀ (env : Env) (ctx : Context) (rv : Option String) (e : RaisedError),
       (get_available_repo_ids env ctx rv).1 = Except.error e →
       (∃ te, e = RaisedError.terminal te ∧ te.message ≠ "" ∧
          ∀ v, ("hint", v) ∉ te.details) ∨
       (∃ m, e = RaisedError.osError m)) ∧
    (∀ (ctx : Context) (e : RaisedError),
       (set_container_modeImpl ctx).1 = Except.error e →
       (∃ te, e = RaisedError.terminal te ∧ te.message ≠ "" ∧ te.details = []) ∨
       (∃ m, e = RaisedError.osError m)) := by
  refine ⟨?_, ?_, ?_⟩
  · intro hint ctx cmd k e h
    unfold runWithHandler at h
    cases hc : ctx.callResult cmd with
    | ok r => rw [hc] at h; exact Except.noConfusion h
    | error ce =>
      cases ce with
      | osError m =>
        rw [hc] at h
        refine ⟨_, ((Except.error.injEq _ _).mp h).symm, ?_, ?_⟩
        · exact strAppend_ne_empty _ _ (by decide)
        · exact ⟨"Please ensure subscription-manager is installed and executable.", by simp⟩
      | processError d st =>
        rw [hc] at h
        refine ⟨_, ((Except.error.injEq _ _).mp h).symm, ?_, ?_⟩
        · show "A subscription-manager command failed to execute" ≠ ""
          decide
        · exact ⟨hint.getD execDefaultHint, by simp⟩
  · intro env ctx rv e h
    unfold get_available_repo_ids get_available_repo_idsImpl at h
    cases hc : ctx.callResult (yumRepoinfoCmd rv) with
    | error ce =>
      cases ce with
      | processError d st =>
        simp only [hc] at h
        left
        refine ⟨_, ((Except.error.injEq _ _).mp h).symm, ?_, ?_⟩
        · show "Unable to get list of available yum repositories." ≠ ""
          decide
        · intro v hv
          rcases List.mem_cons.mp hv with h1 | h1
          · exact absurd (show ("hint" : String) = "details" from congrArg Prod.fst h1)
              (by decide)
          · rcases List.mem_cons.mp h1 with h2 | h2
            · exact absurd (show ("hint" : String) = "stderr" from congrArg Prod.fst h2)
                (by decide)
            · exact absurd h2 (List.not_mem_nil _)
      | osError m =>
        simp only [hc] at h
        right
        exact ⟨m, ((Except.error.injEq _ _).mp h).symm⟩
    | ok r =>
      simp only [hc] at h
      cases hg : getReposList r.stdout with
      | error te =>
        simp only [hg] at h
        left
        obtain ⟨param, b, hshape⟩ := parseBlocks_error_shape (findBlocks r.stdout) te hg
        refine ⟨te, ((Except.error.injEq _ _).mp h).symm, ?_, ?_⟩
        · rw [hshape]
          show "Failed to parse the `yum repoinfo` output" ≠ ""
          decide
        · intro v hv
          rw [hshape] at hv
          rcases List.mem_cons.mp hv with h1 | h1
          · exact absurd (show ("hint" : String) = "details" from congrArg Prod.fst h1)
              (by decide)
          · exact absurd h1 (List.not_mem_nil _)
      | ok repos =>
        simp only [hg] at h
        exact Except.noConfusion h
  · intro ctx e h
    unfold set_container_modeImpl at h
    cases hiso : ctx.isolated with
    | false => rw [hiso] at h; simp at h
    | true =>
      rw [hiso] at h
      simp only [Bool.true_eq_false, if_false] at h
      cases hc : ctx.callResult lnCmd with
      | ok r => rw [hc] at h; exact Except.noConfusion h
      | error ce =>
        cases ce with
        | processError d st =>
          rw [hc] at h
          left
          exact ⟨_, ((Except.error.injEq _ _).mp h).symm, by decide, rfl⟩
        | osError m =>
          rw [hc] at h
          right
          exact ⟨m, ((Except.error.injEq _ _).mp h).symm⟩

/-- C4 witness: the handler of a failed subscription-manager command yields a
terminal error with a nonempty message and a hint in its details. -/
theorem c4_terminal_error_shape_witness :
    (runWithHandler none ctxLnFail ["subscription-manager", "refresh"] (fun _ => ())).1 =
      Except.error handlerProcErrEx ∧
    (∃ te, handlerProcErrEx = RaisedError.terminal te ∧ te.message ≠ "" ∧
      ∃ v, ("hint", v) ∈ te.details) := by
  refine ⟨rfl, ?_⟩
  exact (c4_terminal_error_shape (α := Unit)).1 none ctxLnFail
    ["subscription-manager", "refresh"] (fun _ => ()) handlerProcErrEx rfl

/-- C5: for every matched repo-info block, a missing `Repo-id` or
`Repo-filename` parameter raises a terminal error whose details embed the
missing parameter name and the offending block text (the exact error is
`repoParseErr param block`, whose single `details` entry interpolates both);
and a malformed matched block is never dropped: the whole listing errors. -/
theorem c5_parse_failure (block : List Char) :
    (searchRepoId block = none →
      parseRepoParams block = Except.error (repoParseErr "Repo-id" block)) ∧
    (∀ rid, searchRepoId block = some rid → searchRepoFilename block = none →
      parseRepoParams block = Except.error (repoParseErr "Repo-filename" block)) ∧
    (∀ stdout e, block ∈ findBlocks stdout → parseRepoParams block = Except.error e →
      ∃ e2, getReposList stdout = Except.error e2) := by
  refine ⟨?_, ?_, ?_⟩
  · intro h; simp [parseRepoParams, h]
  · intro rid h1 h2; simp [parseRepoParams, h1, h2]
  · intro stdout e hmem hpe
    unfold getReposList
    exact parseBlocks_error_of_mem (findBlocks stdout) block e hmem hpe

/-- C5 witness: a block whose `Repo-id` parameter is malformed produces the
parse error naming `Repo-id` and embedding the block. -/
theorem c5_parse_failure_witness :
    searchRepoId badBlockEx = none ∧
    parseRepoParams badBlockEx = Except.error (repoParseErr "Repo-id" badBlockEx) := by
  refine ⟨by decide, ?_⟩
  exact (c5_parse_failure badBlockEx).1 (by decide)

theorem removalEvents_filter_remove (ctx : Context) :
    ∀ ps, (removalEvents ctx ps).filter isRemoveEv = ps.map Event.remove := by
  intro ps
  induction ps with
  | nil => rfl
  | cons p ps ih =>
    cases hr : ctx.removeResult p <;>
      simp [removalEvents, hr, isRemoveEv, ih]

theorem removalEvents_no_copy (ctx : Context) :
    ∀ ps, (removalEvents ctx ps).filter isCopyEv = [] := by
  intro ps
  induction ps with
  | nil => rfl
  | cons p ps ih =>
    cases hr : ctx.removeResult p <;>
      simp [removalEvents, hr, isCopyEv, ih]

theorem copyEvents_no_remove (ctx : Context) (cert : String) :
    (copyEvents ctx cert).filter isRemoveEv = [] := by
  unfold copyEvents productDirs
  cases h1 : ctx.isDir "/etc/pki/product" <;>
    cases h2 : ctx.isDir "/etc/pki/product-default" <;>
      simp [h1, h2, isRemoveEv]

theorem copyEvents_length_le (ctx : Context) (cert : String) :
    (copyEvents ctx cert).length ≤ 2 := by
  unfold copyEvents productDirs
  cases h1 : ctx.isDir "/etc/pki/product" <;>
    cases h2 : ctx.isDir "/etc/pki/product-default" <;>
      simp [h1, h2]

/-- C6: the certificate switcher on a snapshot recording two certificate
paths: it returns normally, its event trace is the removal phase followed by
the copy phase, the removal attempts are exactly two, one per recorded path
in list order, regardless of whether each removal succeeds or fails; the
copy phase contains no removal, holds one copy per fixed target directory
that exists in the context, and so at most two; hence no copy is issued
before both removal attempts have been tried. -/
theorem c6_certificate_switcher (ctx : Context) (info : RHSMInfo) (cert : String)
    (p1 p2 : String) (h : info.existing_product_certificates = [p1, p2]) :
    (switch_certificateImpl ctx info cert).1 = Except.ok () ∧
    (switch_certificateImpl ctx info cert).2 =
      removalEvents ctx [p1, p2] ++ copyEvents ctx cert ∧
    (removalEvents ctx [p1, p2]).filter isRemoveEv = [Event.remove p1, Event.remove p2] ∧
    (removalEvents ctx [p1, p2]).filter isCopyEv = [] ∧
    (copyEvents ctx cert).filter isRemoveEv = [] ∧
    copyEvents ctx cert = (productDirs.filter ctx.isDir).map
      (fun p => Event.copyTo cert (joinPath p (basename cert))) ∧
    (copyEvents ctx cert).length ≤ 2 := by
  refine ⟨rfl, ?_, ?_, removalEvents_no_copy ctx [p1, p2], copyEvents_no_remove ctx cert,
    rfl, copyEvents_length_le ctx cert⟩
  · unfold switch_certificateImpl
    rw [h]
  · rw [removalEvents_filter_remove ctx [p1, p2]]
    rfl

/-- C6 witness: on a concrete context where the first removal fails, both
removal attempts still happen, in order, and a single copy follows. -/
theorem c6_certificate_switcher_witness :
    infoTwoCerts.existing_product_certificates =
      ["/etc/pki/product/old1.pem", "/etc/pki/product/old2.pem"] ∧
    (removalEvents ctxCertSwitch
        ["/etc/pki/product/old1.pem", "/etc/pki/product/old2.pem"]).filter isRemoveEv =
      [Event.remove "/etc/pki/product/old1.pem", Event.remove "/etc/pki/product/old2.pem"] := by
  refine ⟨rfl, ?_⟩
  exact (c6_certificate_switcher ctxCertSwitch infoTwoCerts "/new/cert.pem"
    "/etc/pki/product/old1.pem" "/etc/pki/product/old2.pem" rfl).2.2.1

/-- C7: container-mode setup against a host (non-isolated) root logs an error
and returns, raising nothing and issuing no command, removal or copy; against
an isolated root whose marker command exits non-zero it raises a terminal
error. -/
theorem c7_container_mode_guard (ctx : Context) :
    (ctx.isolated = false →
      set_container_modeImpl ctx = (Except.ok (), [Event.logError containerModeHostMsg])) ∧
    (∀ d st, ctx.isolated = true →
      ctx.callResult lnCmd = Except.error (CallError.processError d st) →
      set_container_modeImpl ctx =
        (Except.error (RaisedError.terminal
          { message := "Cannot set the container mode for the subscription-manager."
            details := [] }),
         [Event.call lnCmd])) := by
  constructor
  · intro h
    simp [set_container_modeImpl, h]
  · intro d st h1 h2
    simp [set_container_modeImpl, h1, h2]

/-- C7 witness: a host-root context is refused with only an error log; an
isolated context with a failing `ln` raises the terminal error. -/
theorem c7_container_mode_guard_witness :
    ctxHost.isolated = false ∧
    set_container_modeImpl ctxHost = (Except.ok (), [Event.logError containerModeHostMsg]) ∧
    set_container_modeImpl ctxLnFail =
      (Except.error (RaisedError.terminal
        { message := "Cannot set the container mode for the subscription-manager."
          details := [] }),
       [Event.call lnCmd]) := by
  refine ⟨rfl, ?_, ?_⟩
  · exact (c7_container_mode_guard ctxHost).1 rfl
  · exact (c7_container_mode_guard ctxLnFail).2 "exit code 1" "ln: failed" rfl rfl

/-- C8: on the single-block `yum repoinfo` stdout of the end-to-end scenario,
parsing yields exactly one Repository with the `/x86_64` suffix stripped from
the repoid and the literal `Repo-filename` path, and the RHSM-filtered
available-repo list is exactly `["rhel-7-server-rpms"]`. -/
theorem c8_end_to_end :
    getReposList repoinfoStdoutEx =
      Except.ok [{ repoid := "rhel-7-server-rpms", file := "/etc/yum.repos.d/redhat.repo" }] ∧
    get_available_repo_ids envEmpty ctxRepoinfo none =
      (Except.ok ["rhel-7-server-rpms"],
       [Event.call ["yum", "repoinfo"], availableReposLog ["rhel-7-server-rpms"]]) := by
  exact ⟨by decide, by decide⟩

/-- C9: outside skip mode, when the release query command succeeds and its
stdout has no `Release:` token, `get_release` returns the empty string — not
an error and not an absent value. -/
theorem c9_release_query (env : Env) (ctx : Context) (r : CmdResult)
    (hskip : skip_rhsm env = false)
    (hcall : ctx.callResult ["subscription-manager", "release"] = Except.ok r)
    (hno : findTokens "Release:" r.stdout = []) :
    get_release env ctx =
      (Except.ok (some ""), [Event.call ["subscription-manager", "release"]]) := by
  unfold get_release withRhsm
  rw [hskip]
  unfold get_releaseImpl runWithHandler
  rw [hcall]
  simp [hno, Except.map]

/-- C9 witness: a context answering `Release not set` yields the empty
string. -/
theorem c9_release_query_witness :
    skip_rhsm envEmpty = false ∧
    findTokens "Release:" "Release not set" = [] ∧
    get_release envEmpty ctxRelUnset =
      (Except.ok (some ""), [Event.call ["subscription-manager", "release"]]) := by
  refine ⟨rfl, by decide, ?_⟩
  exact c9_release_query envEmpty ctxRelUnset { stdout := "Release not set", stderr := "" }
    rfl rfl (by decide)

/-- C10: `get_available_repo_ids` is not gated by the skip switch: its result
is identical under any two environments, it always issues the `yum repoinfo`
invocation first, and on a successful call it always performs duplicate
detection, parsing, and RHSM-file filtering — whereas any `with_rhsm`-gated
operation becomes a silent no-op under the skip environment. -/
theorem c10_not_gated (env1 env2 env : Env) (ctx : Context) (rel : Option String) :
    get_available_repo_ids env1 ctx rel = get_available_repo_ids env2 ctx rel ∧
    (∃ evs, (get_available_repo_ids env ctx rel).2 = Event.call (yumRepoinfoCmd rel) :: evs) ∧
    (∀ r, ctx.callResult (yumRepoinfoCmd rel) = Except.ok r →
      (get_available_repo_ids env ctx rel).2 =
        Event.call (yumRepoinfoCmd rel) ::
          (inhibitOnDuplicateRepos r.stderr ++
            (match getReposList r.stdout with
             | .error _ => []
             | .ok repos => [availableReposLog
                 ((repos.filter (fun p => p.file == defaultRhsmRepofile)).map
                   Repository.repoid)]))) ∧
    (∀ (β : Type) (f : Context → Except RaisedError β × List Event) (c : Context),
      withRhsm envSkipOn f c = (Except.ok none, [])) := by
  refine ⟨rfl, ?_, ?_, ?_⟩
  · unfold get_available_repo_ids get_available_repo_idsImpl
    cases hc : ctx.callResult (yumRepoinfoCmd rel) with
    | error ce =>
      cases ce with
      | processError d st => exact ⟨[], by simp [hc]⟩
      | osError m => exact ⟨[], by simp [hc]⟩
    | ok r =>
      cases hg : getReposList r.stdout with
      | error te => exact ⟨inhibitOnDuplicateRepos r.stderr, by simp [hc, hg]⟩
      | ok repos =>
        exact ⟨inhibitOnDuplicateRepos r.stderr ++
          [availableReposLog ((repos.filter (fun p => p.file == defaultRhsmRepofile)).map
            Repository.repoid)], by simp [hc, hg]⟩
  · intro r hr
    unfold get_available_repo_ids get_available_repo_idsImpl
    cases hg : getReposList r.stdout with
    | error te => simp [hr, hg]
    | ok repos => simp [hr, hg]
  · intro β f c
    have hskip : skip_rhsm envSkipOn = true := rfl
    simp [withRhsm, hskip]

/-- C10 witness: under the skip environment the yum invocation is still
issued and the RHSM-filtered list still computed, with the exact same
outcome as under an empty environment. -/
theorem c10_not_gated_witness :
    ctxRepoinfo.callResult (yumRepoinfoCmd none) =
      Except.ok { stdout := repoinfoStdoutEx, stderr := "" } ∧
    (get_available_repo_ids envSkipOn ctxRepoinfo none).2 =
      [Event.call ["yum", "repoinfo"], availableReposLog ["rhel-7-server-rpms"]] := by
  refine ⟨rfl, ?_⟩
  have h := (c10_not_gated envSkipOn envEmpty envSkipOn ctxRepoinfo none).2.2.1
    { stdout := repoinfoStdoutEx, stderr := "" } rfl
  rw [h]
  decide

end Rhsm
